import Mathlib

/-!
Verification of the adksolutionsaccelerator backend against its
natural-language specification.  Each Python function relevant to the
checked properties is shallowly embedded as an executable Lean
definition; external services (Firestore, Vertex AI RAG, Google Drive)
are modelled by explicit state values or by oracle function parameters
supplied to the embedded control flow, which mirrors the source.
-/

namespace ADK

/-! ## drive_integration.py -/

/-- Python compares tools by object identity when evaluating
`tool not in financial_agent.tools` for plain function objects; a tool
object is therefore modelled as an opaque reference tag. -/
structure PyToolRef where
  ref : Nat
deriving DecidableEq

/-- The attributes of the financial agent object touched by
`add_drive_rag_to_financial_agent`: its tool list and instruction text. -/
structure FinancialAgentCfg where
  tools : List PyToolRef
  instruction : String
deriving DecidableEq

/-- The module-level function object `query_drive_corpus` imported by
drive_integration.py. -/
def queryDriveCorpusRef : PyToolRef := ⟨0⟩

/-- The module-level function object `get_corpus_status` imported by
drive_integration.py. -/
def getCorpusStatusRef : PyToolRef := ⟨1⟩

/-- The fixed Drive-search guidance block appended to the agent
instruction by `add_drive_rag_to_financial_agent` (drive_integration.py,
`drive_instruction`). -/
def driveInstructionBlock : String :=
  "\n\nGOOGLE DRIVE INTEGRATION:\nYou now have access to the user\x27s Google Drive documents through RAG.\n\nIMPORTANT: When the user asks about their documents, files, or anything they\x27ve uploaded:\n1. ALWAYS use query_drive_corpus to search their indexed Drive documents\n2. Use get_corpus_status to check if they have documents indexed\n\nWhen to use Drive search:\n- User mentions \"my documents\", \"my files\", \"in my Drive\", \"what files do I have\"\n- User asks about specific documents or content in their Drive\n- User wants to search or analyze their personal data\n\nExample queries that should trigger Drive search:\n- \"What files do I have indexed?\"\n- \"What\x27s in my documents?\"\n- \"Search my meeting notes\"\n- \"What did I discuss in the Vanco project?\"\n- \"Find information about [topic] in my Drive\"\n\nWhen searching Drive:\n- Use query_drive_corpus with a relevant search query\n- Always cite document sources in your response\n- If no results, check with get_corpus_status to confirm files are indexed\n- If not connected or no documents, guide user to Settings > Google Drive\n"

/-- One iteration of the loop `for tool in drive_tools: if tool not in
financial_agent.tools: financial_agent.tools.append(tool)`. -/
def appendIfAbsent (ts : List PyToolRef) (t : PyToolRef) : List PyToolRef :=
  if t ∈ ts then ts else ts ++ [t]

/-- Embedding of `add_drive_rag_to_financial_agent`
(drive_integration.py lines 26-75): appends the two Drive RAG tools when
absent (identity comparison) and concatenates the fixed guidance block
onto the instruction text. -/
def add_drive_rag_to_financial_agent (agent : FinancialAgentCfg) : FinancialAgentCfg :=
  let tools1 := appendIfAbsent agent.tools queryDriveCorpusRef
  let tools2 := appendIfAbsent tools1 getCorpusStatusRef
  { tools := tools2, instruction := agent.instruction ++ driveInstructionBlock }

/-! ## SSE streaming (backend/api/chat.py and backend/api/agents_chat.py)

Every streaming route yields server-sent-event lines of the form
`data: <json>` followed by a blank line, with `json.dumps` default
formatting, and a terminal sentinel line `data: [DONE]`.  A run of the
agent runtime is modelled by the list of events it yields before either
completing normally or raising; emissions are the exact strings yielded
by the Python generator, in order. -/

/-- Escape of one character as performed by `json.dumps` for the string
payloads occurring here (quote, backslash and newline; other characters
in the streamed texts pass through unchanged). -/
def jsonEscapeChar (c : Char) : String :=
  if c = '\"' then "\\\"" else if c = '\\' then "\\\\" else if c = '\n' then "\\n" else String.singleton c

/-- Escape of a string payload as performed by `json.dumps`. -/
def jsonEscape (s : String) : String :=
  String.join (s.data.map jsonEscapeChar)

/-- The terminal sentinel line yielded as `data: [DONE]\n\n`. -/
def sseDone : String := "data: [DONE]\n\n"

/-- One element of the parts list in a content fragment:
`\x7b"text": "<payload>"\x7d`. -/
def sseTextPart (t : String) : String :=
  "\x7b\"text\": \"" ++ jsonEscape t ++ "\"\x7d"

/-- A content fragment as yielded by the streaming generators:
`data: ` followed by the `json.dumps` rendering of
`\x7b"content": \x7b"parts": [\x7b"text": t\x7d, ...]\x7d\x7d` and a blank line. -/
def sseContentFragment (parts : List String) : String :=
  "data: \x7b\"content\": \x7b\"parts\": [" ++ String.intercalate ", " (parts.map sseTextPart)
    ++ "]\x7d\x7d\n\n"

/-- An error fragment as yielded by the chat.py generators on an
exception: `data: ` followed by `json.dumps` of `\x7b"error": str(e)\x7d`. -/
def sseErrorFragment (msg : String) : String :=
  "data: \x7b\"error\": \"" ++ jsonEscape msg ++ "\"\x7d\n\n"

/-- A run of `runner.run_async` as observed by a chat.py generator: the
part texts of each yielded event (an event whose content is absent or
whose parts list is empty is recorded as `[]` and skipped by the
generator), and, when the iteration raises, the exception message;
events listed are those already yielded before the exception. -/
structure ChatRun where
  events : List (List String)
  failure : Option String

/-- Embedding of the generator bodies of `stream_query.generate` and
`chat_with_file.generate` (backend/api/chat.py lines 159-193 and
205-243; server.py has the same emission logic): one content fragment
per event with nonempty parts, then either the `[DONE]` sentinel on
normal completion or a single error fragment on an exception.  Neither
route appends anything to a session message log. -/
def chat_stream_generate (run : ChatRun) : List String :=
  ((run.events.filter (fun ps => !ps.isEmpty)).map sseContentFragment) ++
    (match run.failure with
     | none => [sseDone]
     | some msg => [sseErrorFragment msg])

/-- A run of `runner.run_async` as observed by an agents_chat.py
generator: the extracted `event_text` of each yielded event, and whether
the iteration raised after yielding them. -/
structure AgentsRun where
  texts : List String
  failure : Bool

/-- The fixed fallback sentence substituted by `stream_chat.generate`
when the run produced no text. -/
def fallbackMessage : String := "I\x27m your financial assistant. How can I help?"

/-- The fixed apology streamed by `stream_chat.generate` on an
exception. -/
def streamApology : String := "I\x27m here to help with financial analysis. Please try again."

/-- The fixed apology streamed by the agents_chat `chat_with_file`
generator on an exception. -/
def fileApology : String := "I had trouble analyzing that file. Please try again."

/-- Concatenation of a list of strings, as the repeated
`assistant_content += char` accumulation produces. -/
def strConcat : List String → String
  | [] => ""
  | t :: ts => t ++ strConcat ts

/-- Character-by-character emission of a text: one content fragment per
character, as the `for char in event_text` loops yield. -/
def charFragments (t : String) : List String :=
  t.data.map (fun c => sseContentFragment [String.singleton c])

/-- Observable outcome of an agents_chat generator: the yielded SSE
lines, the final value of `assistant_content`, and the content of the
assistant message appended to `messages_db` (absent when nothing is
appended). -/
structure StreamOutcome where
  emissions : List String
  assistantText : String
  persisted : Option String

/-- Embedding of the generator bodies of `stream_chat.generate`
(backend/api/agents_chat.py lines 88-215, `useFallback := true`,
`apology := streamApology`) and of the agents_chat
`chat_with_file.generate` (lines 264-380, `useFallback := false`,
`apology := fileApology`): each event text is streamed character by
character; on normal completion the empty-response fallback may be
streamed, the accumulated assistant message is appended to
`messages_db`, and `[DONE]` is yielded; on an exception the apology is
streamed character by character followed by `[DONE]`, and no assistant
message is appended. -/
def agents_stream_generate (run : AgentsRun) (apology : String) (useFallback : Bool) :
    StreamOutcome :=
  let streamed := (run.texts.map charFragments).flatten
  let content := strConcat run.texts
  if run.failure then
    { emissions := streamed ++ charFragments apology ++ [sseDone],
      assistantText := content ++ apology,
      persisted := none }
  else
    if useFallback && content == "" then
      { emissions := streamed ++ charFragments fallbackMessage ++ [sseDone],
        assistantText := fallbackMessage,
        persisted := some fallbackMessage }
    else
      { emissions := streamed ++ [sseDone],
        assistantText := content,
        persisted := some content }

/-! ## user_service.py and auth_endpoints.py

Users are Firestore documents; a document is modelled as an association
list from field name to value, so that presence or absence of a field
(in particular `hashed_password`) is directly observable.  The password
hashing and verification functions live in the `auth` module and are
passed in as function parameters; their internals do not matter to the
properties below. -/

/-- A field value of a user document: a string field or the fixed
three-flag `connected_services` map. -/
inductive UVal where
  | str (v : String)
  | connectedServices (google salesforce sharepoint : Bool)
deriving DecidableEq

/-- A user document, as `doc.to_dict()` returns it. -/
abbrev UserDoc := List (String × UVal)

/-- Lowercasing of an email as `email.lower()` performs it, mapping
each character (String.toLower stated at the character-list level so
that it evaluates by kernel reduction). -/
def pyLower (s : String) : String :=
  String.mk (s.data.map Char.toLower)

/-- Python `d.get(k)` on a document. -/
def udGet (d : UserDoc) (k : String) : Option UVal :=
  (d.find? (fun kv => kv.1 == k)).map (fun kv => kv.2)

/-- Python `k in d` on a document. -/
def udHasKey (d : UserDoc) (k : String) : Bool :=
  d.any (fun kv => kv.1 == k)

/-- The `users` collection: document id to document. -/
structure UsersState where
  users : List (String × UserDoc)
deriving DecidableEq

/-- Embedding of `UserService._sanitize_user_data` (user_service.py
lines 128-133): copy the dict and pop `hashed_password`. -/
def sanitize_user_data (user_data : UserDoc) : UserDoc :=
  user_data.filter (fun kv => kv.1 != "hashed_password")

/-- Embedding of `UserService.get_user_by_email` (user_service.py lines
73-83): equality query on the lowercased email, first result, returned
as the raw document. -/
def get_user_by_email (st : UsersState) (email : String) : Option UserDoc :=
  (st.users.find? (fun kv => udGet kv.2 "email" == some (UVal.str (pyLower email)))).map
    (fun kv => kv.2)

/-- Embedding of `UserService.get_user_by_id` (user_service.py lines
85-94): direct document lookup, returned as the raw document with no
sanitization. -/
def get_user_by_id (st : UsersState) (user_id : String) : Option UserDoc :=
  (st.users.find? (fun kv => kv.1 == user_id)).map (fun kv => kv.2)

/-- Embedding of `UserService.create_user` (user_service.py lines
22-71): pre-check by email, then store the document with the hashed
password, lowercased email, fixed role and connection flags, and return
the sanitized copy.  `hash` is `auth.get_password_hash`; `newId` is the
generated document id; `now` is `datetime.utcnow().isoformat()`. -/
def create_user (st : UsersState) (email password name : String)
    (hash : String → String) (newId now : String) :
    UsersState × Except String UserDoc :=
  match get_user_by_email st email with
  | some _ => (st, Except.error "User with this email already exists")
  | none =>
    let user_data : UserDoc :=
      [("id", UVal.str newId),
       ("email", UVal.str (pyLower email)),
       ("hashed_password", UVal.str (hash password)),
       ("name", UVal.str name),
       ("role", UVal.str "user"),
       ("created_at", UVal.str now),
       ("updated_at", UVal.str now),
       ("connected_services", UVal.connectedServices false false false)]
    ({ users := st.users ++ [(newId, user_data)] }, Except.ok (sanitize_user_data user_data))

/-- Embedding of `UserService.authenticate_user` (user_service.py lines
96-111): absent email yields `none`; a failing password check yields
`none`; success returns the sanitized record.  The subscript
`user["hashed_password"]` raises `KeyError` when the field is missing,
modelled as the error case. -/
def authenticate_user (st : UsersState) (email password : String)
    (verify : String → String → Bool) : Except String (Option UserDoc) :=
  match get_user_by_email st email with
  | none => Except.ok none
  | some user =>
    match udGet user "hashed_password" with
    | some (UVal.str h) =>
      if verify password h then Except.ok (some (sanitize_user_data user))
      else Except.ok none
    | _ => Except.error "KeyError: hashed_password"

/-- Embedding of the `/auth/me` route handler (auth_endpoints.py lines
174-187), after the bearer-token dependency has resolved the caller to
`user_id`: the document from `get_user_by_id` is returned verbatim, or
404 when absent. -/
def auth_me_route (st : UsersState) (user_id : String) : Except Nat UserDoc :=
  match get_user_by_id st user_id with
  | none => Except.error 404
  | some user => Except.ok user

/-- Embedding of the user-resolution step of the `/auth/refresh` route
handler (auth_endpoints.py lines 142-162), after the refresh token has
been decoded and its type and subject validated upstream: the document
from `get_user_by_id` is placed verbatim into the `user` field of the
token response, or 401 when the subject no longer resolves. -/
def auth_refresh_route_user (st : UsersState) (subject : String) : Except Nat UserDoc :=
  match get_user_by_id st subject with
  | none => Except.error 401
  | some user => Except.ok user

/-! ## backend/services/firestore_service.py

The module imports exactly `datetime`, `Optional`, `List`, `Dict`,
`Any` and `get_firestore_client` (lines 1-5); its other module-scope
names are the class and the singleton accessor.  `add_message` (lines
129-161) evaluates the expression `firestore.Increment(1)` while
building the session update, so the embedding performs the same name
lookup against the module scope (Python also consults builtins, which
hold no name `firestore`). -/

/-- A document of the `sessions` collection. -/
structure SessionDoc where
  user_id : String
  agent_id : String
  title : String
  created_at : String
  updated_at : String
  message_count : Nat
deriving DecidableEq

/-- A document of the `messages` collection. -/
structure MessageDoc where
  session_id : String
  user_id : String
  role : String
  content : String
  metadata : List (String × String)
  created_at : String
deriving DecidableEq

/-- The Firestore collections touched by the service. -/
structure FSState where
  sessions : List (String × SessionDoc)
  messages : List (String × MessageDoc)
deriving DecidableEq

/-- A Python runtime error raised by the embedded code. -/
inductive PyError where
  | nameError (name : String)
deriving DecidableEq

/-- The names bound at module scope in
backend/services/firestore_service.py: the imports of lines 1-5 and the
module-level definitions. -/
def firestoreServiceModuleScope : List String :=
  ["datetime", "Optional", "List", "Dict", "Any", "get_firestore_client",
   "FirestoreService", "_firestore_service", "get_firestore_service"]

/-- Embedding of `FirestoreService.add_message` (firestore_service.py
lines 129-161): the message document is added first; then the session
update dict `\x7b"updated_at": ..., "message_count":
firestore.Increment(1)\x7d` is evaluated, which resolves the name
`firestore` in the module scope; were it bound, the session would be
stamped and its count atomically incremented, and the message record
returned. -/
def add_message (st : FSState) (session_id user_id role content : String)
    (metadata : List (String × String)) (newId now now2 : String) :
    FSState × Except PyError MessageDoc :=
  let message_data : MessageDoc :=
    { session_id := session_id, user_id := user_id, role := role,
      content := content, metadata := metadata, created_at := now }
  let st1 : FSState := { st with messages := st.messages ++ [(newId, message_data)] }
  if "firestore" ∈ firestoreServiceModuleScope then
    let sessions2 := st1.sessions.map (fun kv =>
      if kv.1 == session_id then
        (kv.1, { kv.2 with updated_at := now2, message_count := kv.2.message_count + 1 })
      else kv)
    ({ st1 with sessions := sessions2 }, Except.ok message_data)
  else
    (st1, Except.error (PyError.nameError "firestore"))

/-! ## agents/drive_rag_agent/tools/rag_tools.py

The Vertex AI RAG backend is modelled as an explicit list of corpora.
The corpus description field is only ever consumed through
`description.startswith("\x7b")` followed by `json.loads`, and only ever
produced through `json.dumps` of a metadata dict, so it is modelled as
either a plain string (does not start with a brace / fails to parse) or
the rendering of a metadata dict. -/

/-- A metadata value occurring in the description JSON blob: the string
fields and the integer `total_files`. -/
inductive MetaVal where
  | s (v : String)
  | n (v : Nat)
deriving DecidableEq

/-- A parsed metadata dict. -/
abbrev MetaDict := List (String × MetaVal)

/-- Python `d.get(k)` on a metadata dict. -/
def metaGet (md : MetaDict) (k : String) : Option MetaVal :=
  (md.find? (fun kv => kv.1 == k)).map (fun kv => kv.2)

/-- Python `d[k] = v` on a metadata dict. -/
def metaSet (md : MetaDict) (k : String) (v : MetaVal) : MetaDict :=
  if md.any (fun kv => kv.1 == k) then
    md.map (fun kv => if kv.1 == k then (k, v) else kv)
  else md ++ [(k, v)]

/-- Python `base.update(upd)` on metadata dicts. -/
def metaUpdate (base upd : MetaDict) : MetaDict :=
  upd.foldl (fun acc kv => metaSet acc kv.1 kv.2) base

/-- The corpus description field, as the code reads and writes it. -/
inductive CorpusDesc where
  | plain (s : String)
  | jsonMeta (md : MetaDict)
deriving DecidableEq

/-- A file uploaded into a corpus. -/
structure RagFile where
  display_name : String
  description : String
deriving DecidableEq

/-- A Vertex AI RAG corpus. -/
structure RagCorpus where
  name : String
  display_name : String
  description : CorpusDesc
  files : List RagFile
  create_time : String
deriving DecidableEq

/-- The set of all corpora in the project, as `rag.list_corpora`
enumerates them. -/
structure RagState where
  corpora : List RagCorpus
deriving DecidableEq

/-- A `rag.get_corpus(name=...)` lookup; an absent name raises in the
source, landing in the callers except branch. -/
def rag_get_corpus (st : RagState) (name : String) : Option RagCorpus :=
  st.corpora.find? (fun c => c.name == name)

/-- Embedding of `update_corpus_metadata` (rag_tools.py lines 110-150):
fetch the corpus, merge the new metadata into whatever metadata the
description currently parses as, compute the updated `json.dumps`
string — and return True having performed no write: the source has no
call that stores `updated_desc` back to the corpus, it only logs.  A
failing fetch is caught and reported as False. -/
def update_corpus_metadata (st : RagState) (corpus_name : String) (metadata : MetaDict) :
    RagState × Bool :=
  match rag_get_corpus st corpus_name with
  | none => (st, false)
  | some corpus =>
    let mergedMetadata :=
      match corpus.description with
      | CorpusDesc.jsonMeta existing => metaUpdate existing metadata
      | CorpusDesc.plain _ => metadata
    let _updated_desc : CorpusDesc := CorpusDesc.jsonMeta mergedMetadata
    (st, true)

/-- The dict returned by `get_user_corpus_info`. -/
structure CorpusInfo where
  name : String
  display_name : String
  description : CorpusDesc
  files_count : Nat
  created : String
  last_indexed : Option MetaVal
  indexed_folder_name : Option MetaVal
  indexed_folder_id : Option MetaVal
  total_files : MetaVal
deriving DecidableEq

/-- Embedding of `get_user_corpus_info` (rag_tools.py lines 153-197):
linear scan of all corpora for the display name
`drive_corpus_user_<user id>`; on a match, count the corpus files and
best-effort parse the metadata out of the description (empty dict when
it does not parse); absent a match, return None. -/
def get_user_corpus_info (st : RagState) (user_id : String) : Option CorpusInfo :=
  let corpus_display_name := "drive_corpus_user_" ++ user_id
  match st.corpora.find? (fun c => c.display_name == corpus_display_name) with
  | none => none
  | some corpus =>
    let metadata : MetaDict :=
      match corpus.description with
      | CorpusDesc.jsonMeta md => md
      | CorpusDesc.plain _ => []
    some { name := corpus.name, display_name := corpus.display_name,
           description := corpus.description,
           files_count := corpus.files.length, created := corpus.create_time,
           last_indexed := metaGet metadata "last_indexed",
           indexed_folder_name := metaGet metadata "indexed_folder_name",
           indexed_folder_id := metaGet metadata "indexed_folder_id",
           total_files := (metaGet metadata "total_files").getD (MetaVal.n corpus.files.length) }

/-- One context chunk of a retrieval response. -/
structure RagContextChunk where
  text : String
  source_uri : Option String
  distance : Option Float

/-- One entry of the results list returned by `query_drive_corpus`. -/
structure RagResultEntry where
  text : String
  source : String
  score : Float

/-- The dict returned by `query_drive_corpus`; fields absent from a
given return statement in the source are None here. -/
structure QueryResult where
  status : String
  message : Option String
  query : Option String
  results : List RagResultEntry
  total_results : Option Nat
  corpus_name : Option String
  corpus_files : Option Nat

/-- Embedding of `query_drive_corpus` (rag_tools.py lines 200-276).
`retrieval` is the `rag.retrieval_query` backend taking the corpus name,
query text and breadth; the second component of the result records
whether that backend call was reached.  A missing user id yields the
error payload; a missing corpus yields the `no_corpus` payload with an
empty results list before any retrieval call; otherwise the retrieval
response chunks are mapped to result entries with Unknown/0.0 defaults. -/
def query_drive_corpus (st : RagState) (toolUserId : Option String) (query : String)
    (similarity_top_k : Nat)
    (retrieval : String → String → Nat → List RagContextChunk) :
    QueryResult × Bool :=
  match toolUserId with
  | none =>
    ({ status := "error",
       message := some "User ID not found. Please ensure you are authenticated.",
       query := none, results := [], total_results := none,
       corpus_name := none, corpus_files := none }, false)
  | some user_id =>
    match get_user_corpus_info st user_id with
    | none =>
      ({ status := "no_corpus",
         message := some "No corpus found. Please index a Drive folder first using index_drive_folder.",
         query := some query, results := [], total_results := none,
         corpus_name := none, corpus_files := none }, false)
    | some corpus_info =>
      let corpus_name := corpus_info.name
      let response := retrieval corpus_name query similarity_top_k
      let results := response.map (fun c =>
        ({ text := c.text, source := c.source_uri.getD "Unknown",
           score := c.distance.getD 0.0 } : RagResultEntry))
      ({ status := "success", message := none, query := some query, results := results,
         total_results := some results.length, corpus_name := some corpus_name,
         corpus_files := some corpus_info.files_count }, true)

/-! ## agents/drive_rag_agent/tools/drive_tools.py — index_drive_folder

The Drive API interactions of one indexing call are injected as oracle
parameters: the supported-file listing already obtained by
`get_files_in_folder`, the per-file outcome of `download_drive_file`
(local path, or None on any failure) and the per-file outcome of
`upload_file_to_corpus` (which swallows its own errors and returns a
boolean), and the outcome of `create_or_get_user_corpus` (which
re-raises, landing in the outer except branch). -/

/-- A Drive file descriptor as listed by `get_files_in_folder`. -/
structure DriveFile where
  id : String
  name : String
  mime_type : String
deriving DecidableEq

/-- The dict returned by `index_drive_folder`; fields absent from a
given return statement in the source are None here. -/
structure IndexResult where
  status : String
  message : String
  corpus_name : Option String
  files_indexed : Nat
  files_failed : Option Nat
  indexed_files : Option (List String)
  folder_id : Option String
  folder_name : Option String
deriving DecidableEq

/-- One iteration of the indexing loop (drive_tools.py lines 327-363)
over the accumulator (indexed count, failed count, indexed names): a
failed download counts as failed; a successful download followed by a
failed upload counts as failed; otherwise the file is counted indexed
and its name recorded. -/
def indexStep (download : DriveFile → Option String) (upload : DriveFile → String → Bool)
    (acc : Nat × Nat × List String) (file : DriveFile) : Nat × Nat × List String :=
  match download file with
  | some file_path =>
    if upload file file_path then (acc.1 + 1, acc.2.1, acc.2.2 ++ [file.name])
    else (acc.1, acc.2.1 + 1, acc.2.2)
  | none => (acc.1, acc.2.1 + 1, acc.2.2)

/-- Embedding of `index_drive_folder` (drive_tools.py lines 270-393):
error payload without a user id; warning payload when the folder holds
no supported files; error payload when obtaining the corpus raises;
otherwise each file is downloaded and uploaded, successes and failures
are counted per file, the corpus metadata update is invoked (a no-op
write, see `update_corpus_metadata`) and the success payload reports the
counts and the indexed names. -/
def index_drive_folder (st : RagState) (folder_id : String) (folder_name : Option String)
    (toolUserId : Option String) (files : List DriveFile)
    (corpusResult : Except String RagCorpus)
    (download : DriveFile → Option String) (upload : DriveFile → String → Bool)
    (now : String) : RagState × IndexResult :=
  match toolUserId with
  | none =>
    (st, { status := "error",
           message := "User ID not found. Please ensure you are authenticated.",
           corpus_name := none, files_indexed := 0, files_failed := none,
           indexed_files := none, folder_id := none, folder_name := none })
  | some _user_id =>
    if files.isEmpty then
      (st, { status := "warning",
             message := "No supported files found in folder. Supported types: Docs, Slides, Sheets, PDFs",
             corpus_name := none, files_indexed := 0, files_failed := none,
             indexed_files := none, folder_id := none, folder_name := none })
    else
      match corpusResult with
      | Except.error e =>
        (st, { status := "error", message := "Failed to index folder: " ++ e,
               corpus_name := none, files_indexed := 0, files_failed := none,
               indexed_files := none, folder_id := none, folder_name := none })
      | Except.ok corpus =>
        let counts := files.foldl (indexStep download upload) (0, 0, [])
        let md : MetaDict :=
          [("last_indexed", MetaVal.s now),
           ("indexed_folder_id", MetaVal.s folder_id),
           ("indexed_folder_name", MetaVal.s (folder_name.getD folder_id)),
           ("total_files", MetaVal.n counts.1)]
        let st2 := (update_corpus_metadata st corpus.name md).1
        (st2, { status := "success",
                message := "Successfully indexed " ++ toString counts.1
                  ++ " files from Drive folder",
                corpus_name := some corpus.name,
                files_indexed := counts.1, files_failed := some counts.2.1,
                indexed_files := some counts.2.2,
                folder_id := some folder_id, folder_name := folder_name })

/-- Whether both steps succeed for a file: a download that returns a
path and an upload of that path that returns True. -/
def downloadUploadOk (download : DriveFile → Option String)
    (upload : DriveFile → String → Bool) (file : DriveFile) : Bool :=
  match download file with
  | some p => upload file p
  | none => false

/-- A concrete corpus used to evaluate the corpus-metadata properties. -/
def demoCorpus : RagCorpus :=
  { name := "projects/p/locations/l/ragCorpora/1",
    display_name := "drive_corpus_user_u1",
    description := CorpusDesc.jsonMeta [("last_indexed", MetaVal.s "2024-01-01T00:00:00")],
    files := [], create_time := "2024-01-01T00:00:00" }

/-- A concrete corpus belonging to a different user, used to evaluate
the no-corpus query fallback. -/
def otherCorpus : RagCorpus :=
  { name := "projects/p/locations/l/ragCorpora/9",
    display_name := "drive_corpus_user_u9",
    description := CorpusDesc.plain "Personal Google Drive corpus for user u9",
    files := [], create_time := "2024-01-01T00:00:00" }

/-- Five concrete supported files used to evaluate the indexing
accounting. -/
def demoFiles : List DriveFile :=
  [⟨"f1", "Alpha", "application/pdf"⟩,
   ⟨"f2", "Beta", "application/pdf"⟩,
   ⟨"f3", "Gamma", "application/pdf"⟩,
   ⟨"f4", "Delta", "application/pdf"⟩,
   ⟨"f5", "Epsilon", "application/pdf"⟩]

/-- A download oracle under which exactly the files Beta and Delta fail
to download. -/
def demoDownload : DriveFile → Option String :=
  fun f => if f.name == "Beta" || f.name == "Delta" then none
           else some ("/tmp/scratch/" ++ f.name)

/-- An upload oracle under which every upload succeeds. -/
def demoUpload : DriveFile → String → Bool := fun _ _ => true

/-! ## backend/api/sessions.py, backend/api/upload.py, the /upload
routes of backend/api/chat.py and server.py

The in-memory stores `sessions_db` and `messages_db` are module-level
dicts; a session record is a Python dict onto which the PATCH route
merges arbitrary request fields, so it is modelled as an association
list with unique keys.  Uploaded content is kept abstract: since base64
encoding is a bijection on byte strings, the `base64_data` field is
modelled as the content itself. -/

/-- The file descriptor built by the backend/api/upload.py route. -/
structure FileData where
  filename : String
  ftype : String
  size : Nat
  base64_data : String
  mime_type : String
deriving DecidableEq

/-- A value stored in a session record: strings, numbers, or the ad-hoc
`files` list the upload route appends to. -/
inductive SVal where
  | s (v : String)
  | n (v : Nat)
  | files (v : List FileData)
deriving DecidableEq

/-- A session record of the in-memory store. -/
abbrev SessDict := List (String × SVal)

/-- Python `d.get(k)` on a session record. -/
def sessGet (d : SessDict) (k : String) : Option SVal :=
  (d.find? (fun kv => kv.1 == k)).map (fun kv => kv.2)

/-- Python `d[k] = v` on a session record (keys are unique: the first
matching binding is replaced, otherwise the binding is appended). -/
def sessSet : SessDict → String → SVal → SessDict
  | [], k, v => [(k, v)]
  | kv :: rest, k, v => if kv.1 == k then (k, v) :: rest else kv :: sessSet rest k v

/-- Python `d.update(body)` on a session record: each binding of the
body is assigned in order. -/
def dictMerge (d body : SessDict) : SessDict :=
  body.foldl (fun acc kv => sessSet acc kv.1 kv.2) d

/-- The value a key ends up with after all assignments of a body: its
last binding. -/
def lastGet : SessDict → String → Option SVal
  | [], _ => none
  | kv :: rest, k =>
    match lastGet rest k with
    | some v => some v
    | none => if kv.1 == k then some kv.2 else none

/-- The module-level in-memory stores of backend/api/sessions.py:
`sessions_db` (session id to record) and `messages_db` (session id to
message list). -/
structure SessionsState where
  sessions_db : List (String × SessDict)
  messages_db : List (String × List SessDict)
deriving DecidableEq

/-- Python `db[k]` lookup (`k in db` is its `isSome`). -/
def dbLookup {α : Type} (db : List (String × α)) (k : String) : Option α :=
  (db.find? (fun kv => kv.1 == k)).map (fun kv => kv.2)

/-- Python `db[k] = v` on a store with unique keys. -/
def dbSet {α : Type} : List (String × α) → String → α → List (String × α)
  | [], k, v => [(k, v)]
  | kv :: rest, k, v => if kv.1 == k then (k, v) :: rest else kv :: dbSet rest k v

/-- Embedding of the `GET /sessions/<id>` handler (sessions.py lines
73-80): 404 when the id is absent or the record is owned by another
user, the record otherwise. -/
def get_session_route (st : SessionsState) (session_id user_uid : String) :
    Except Nat SessDict :=
  match dbLookup st.sessions_db session_id with
  | none => Except.error 404
  | some sess =>
    if sessGet sess "userId" = some (SVal.s user_uid) then Except.ok sess
    else Except.error 404

/-- Embedding of the `PATCH /sessions/<id>` handler (sessions.py lines
121-139): after the same existence and ownership checks, every field of
the request body is assigned onto the stored record via
`session.update(body)`, then `updatedAt` is restamped, and the updated
record is stored and returned. -/
def update_session_route (st : SessionsState) (session_id user_uid : String)
    (body : SessDict) (now : String) : SessionsState × Except Nat SessDict :=
  match dbLookup st.sessions_db session_id with
  | none => (st, Except.error 404)
  | some sess =>
    if sessGet sess "userId" = some (SVal.s user_uid) then
      let sess1 := sessSet (dictMerge sess body) "updatedAt" (SVal.s now)
      ({ st with sessions_db := dbSet st.sessions_db session_id sess1 }, Except.ok sess1)
    else (st, Except.error 404)

/-- The 20 MB limit shared by the upload endpoints that enforce one. -/
def MAX_FILE_SIZE : Nat := 20 * 1024 * 1024

/-- An uploaded file as the request delivers it: filename, declared
content type, and byte content (whose length is the file size). -/
structure UploadFilePy where
  filename : String
  content_type : String
  content : String
deriving DecidableEq

/-- `SUPPORTED_TYPES` of backend/api/upload.py: content type to category
tag. -/
def uploadSupportedTypes : List (String × String) :=
  [("application/pdf", "pdf"),
   ("application/vnd.openxmlformats-officedocument.spreadsheetml.sheet", "spreadsheet"),
   ("application/vnd.ms-excel", "spreadsheet"),
   ("text/csv", "spreadsheet"),
   ("image/png", "image"),
   ("image/jpeg", "image"),
   ("image/jpg", "image"),
   ("image/webp", "image")]

/-- `SUPPORTED_MIMETYPES` of backend/api/chat.py. -/
def chatSupportedMimetypes : List String :=
  ["application/pdf", "text/plain", "text/csv",
   "application/vnd.openxmlformats-officedocument.spreadsheetml.sheet",
   "application/vnd.ms-excel", "image/png", "image/jpeg", "image/webp"]

/-- `SUPPORTED_MIMETYPES` of server.py (the chat.py set plus
text/html). -/
def serverSupportedMimetypes : List String :=
  ["application/pdf", "text/plain", "text/html", "text/csv",
   "application/vnd.openxmlformats-officedocument.spreadsheetml.sheet",
   "application/vnd.ms-excel", "image/png", "image/jpeg", "image/webp"]

/-- The reason an upload is rejected; both reasons surface as HTTP 400
with a detail message. -/
inductive UploadReject where
  | badType
  | tooLarge
deriving DecidableEq

/-- The HTTP status attached to an upload rejection. -/
def rejectionStatusCode : UploadReject → Nat := fun _ => 400

/-- Whether one character list starts with another. -/
def startsWithChars : List Char → List Char → Bool
  | [], _ => true
  | _ :: _, [] => false
  | a :: as, b :: bs => a == b && startsWithChars as bs

/-- Whether one character list occurs inside another. -/
def containsChars (pat : List Char) : List Char → Bool
  | [] => pat.isEmpty
  | c :: cs => startsWithChars pat (c :: cs) || containsChars pat cs

/-- Python `sub in s` on strings. -/
def pyContains (s sub : String) : Bool :=
  containsChars sub.data s.data

/-- The descriptor dict built by the backend/api/upload.py route for a
supported file. -/
def mkBackendFileData (file : UploadFilePy) : FileData :=
  { filename := file.filename,
    ftype := ((uploadSupportedTypes.find? (fun kv => kv.1 == file.content_type)).map
      (fun kv => kv.2)).getD "",
    size := file.content.length,
    base64_data := file.content,
    mime_type := file.content_type }

/-- The session mutation `session["files"].append(file_data)` with the
`files` list created when absent (upload.py lines 62-64). -/
def attachFile (sess : SessDict) (fd : FileData) : SessDict :=
  let cur := match sessGet sess "files" with
    | some (SVal.files l) => l
    | _ => []
  sessSet sess "files" (SVal.files (cur ++ [fd]))

/-- Embedding of the backend/api/upload.py `upload_file` handler (lines
21-73): reject an unsupported content type with 400; otherwise read and
encode the content and build the descriptor — with no size check of any
kind — then, only when a truthy `session_id` names a stored session
owned by the caller, append the descriptor to that session; in every
case return the descriptor. -/
def backend_upload_file (st : SessionsState) (current_user_uid : String)
    (session_id : Option String) (file : UploadFilePy) :
    SessionsState × Except UploadReject FileData :=
  if (uploadSupportedTypes.find? (fun kv => kv.1 == file.content_type)).isNone then
    (st, Except.error UploadReject.badType)
  else
    let file_data := mkBackendFileData file
    let st2 :=
      match session_id with
      | some sid =>
        if sid = "" then st
        else
          match dbLookup st.sessions_db sid with
          | some sess =>
            if sessGet sess "userId" = some (SVal.s current_user_uid) then
              { st with sessions_db := dbSet st.sessions_db sid (attachFile sess file_data) }
            else st
          | none => st
      | none => st
    (st2, Except.ok file_data)

/-- Embedding of the backend/api/chat.py `upload_file` handler (lines
255-286): reject an unsupported content type with 400, then reject
content over 20 MB with 400, and only then base64-encode and return the
descriptor. -/
def chat_upload_file (file : UploadFilePy) : Except UploadReject FileData :=
  if !(chatSupportedMimetypes.contains file.content_type) then
    Except.error UploadReject.badType
  else if file.content.length > MAX_FILE_SIZE then
    Except.error UploadReject.tooLarge
  else
    Except.ok { filename := file.filename,
                ftype := if pyContains file.content_type "pdf" then "pdf" else "document",
                size := file.content.length,
                base64_data := file.content,
                mime_type := file.content_type }

/-- The descriptor dict built by server.py `process_uploaded_file`. -/
structure ServerFileData where
  filename : String
  content_type : String
  size : Nat
  ftype : String
  processed_at : String
  base64_data : String
  mime_type : String
  status : String
deriving DecidableEq

/-- Embedding of server.py `get_file_type` (lines 245-253). -/
def get_file_type (content_type : String) : String :=
  if pyContains content_type "pdf" then "pdf"
  else if pyContains content_type "spreadsheet" || pyContains content_type "excel"
      || pyContains content_type "csv" then "spreadsheet"
  else if startsWithChars "image/".data content_type.data then "image"
  else "document"

/-- Embedding of server.py `process_uploaded_file` (lines 255-287):
reject an unsupported content type with 400, then reject content over
20 MB with 400, and only then base64-encode and return the descriptor
(the single-file /upload route re-raises these as HTTP 400). -/
def process_uploaded_file (file : UploadFilePy) (now : String) :
    Except UploadReject ServerFileData :=
  if !(serverSupportedMimetypes.contains file.content_type) then
    Except.error UploadReject.badType
  else if file.content.length > MAX_FILE_SIZE then
    Except.error UploadReject.tooLarge
  else
    Except.ok { filename := file.filename, content_type := file.content_type,
                size := file.content.length, ftype := get_file_type file.content_type,
                processed_at := now, base64_data := file.content,
                mime_type := file.content_type, status := "ready" }

/-- One entry of the /upload/multiple results list: a processed
descriptor, or the per-file error entry built when processing raised. -/
inductive MultiEntry where
  | okEntry (fd : ServerFileData)
  | errEntry (filename : String) (reject : UploadReject)
deriving DecidableEq

/-- The /upload/multiple response payload. -/
structure MultiResult where
  total : Nat
  successful : Nat
  results : List MultiEntry
deriving DecidableEq

/-- Embedding of server.py `upload_multiple_files` (lines 306-328):
more than five files is a 400; otherwise every per-file failure —
including the 20 MB rejection — is caught and converted into an error
entry of an HTTP 200 response. -/
def upload_multiple_files (files : List UploadFilePy) (now : String) :
    Except Nat MultiResult :=
  if files.length > 5 then Except.error 400
  else
    let results := files.map (fun f =>
      match process_uploaded_file f now with
      | Except.ok fd => MultiEntry.okEntry fd
      | Except.error e => MultiEntry.errEntry f.filename e)
    Except.ok { total := files.length,
                successful := (results.filter (fun r =>
                  match r with
                  | MultiEntry.okEntry _ => true
                  | MultiEntry.errEntry _ _ => false)).length,
                results := results }

/-- A concrete PDF upload one byte over the 20 MB limit. -/
def bigFileContent : String := String.mk (List.replicate (MAX_FILE_SIZE + 1) 'a')

/-- The oversized concrete upload request. -/
def bigPdfFile : UploadFilePy := ⟨"big.pdf", "application/pdf", bigFileContent⟩

/-- A concrete session record owned by user alice. -/
def demoSession : SessDict :=
  [("id", SVal.s "s1"), ("userId", SVal.s "alice"),
   ("agentId", SVal.s "financial_agent"),
   ("title", SVal.s "Chat with financial_agent"),
   ("createdAt", SVal.s "2024-01-01T00:00:00"),
   ("updatedAt", SVal.s "2024-01-01T00:00:00"),
   ("messageCount", SVal.n 0)]

/-- A concrete in-memory store holding only the session s1. -/
def demoSessionsState : SessionsState :=
  { sessions_db := [("s1", demoSession)], messages_db := [("s1", [])] }

end ADK

namespace ADK

theorem mem_appendIfAbsent_self (ts : List PyToolRef) (t : PyToolRef) :
    t ∈ appendIfAbsent ts t := by
  unfold appendIfAbsent
  split
  · assumption
  · simp

theorem mem_appendIfAbsent_of_mem {ts : List PyToolRef} {t : PyToolRef} (u : PyToolRef)
    (h : t ∈ ts) : t ∈ appendIfAbsent ts u := by
  unfold appendIfAbsent
  split
  · exact h
  · exact List.mem_append_left _ h

theorem appendIfAbsent_of_mem {ts : List PyToolRef} {t : PyToolRef} (h : t ∈ ts) :
    appendIfAbsent ts t = ts :=
  if_pos h

/-- C8: applying the Drive-RAG augmentation twice with the same tool
objects leaves the tool list as after one application (the two tools are
appended only when not already present, by identity), while the
instruction block is concatenated again on every call, so after two
calls the instruction holds the block twice. -/
theorem addDriveRag_tools_idempotent_instruction_doubled (a : FinancialAgentCfg) :
    (add_drive_rag_to_financial_agent (add_drive_rag_to_financial_agent a)).tools
      = (add_drive_rag_to_financial_agent a).tools
    ∧ (add_drive_rag_to_financial_agent (add_drive_rag_to_financial_agent a)).instruction
      = a.instruction ++ driveInstructionBlock ++ driveInstructionBlock := by
  constructor
  · show appendIfAbsent (appendIfAbsent _ _) _ = _
    have hq : queryDriveCorpusRef ∈ (add_drive_rag_to_financial_agent a).tools :=
      mem_appendIfAbsent_of_mem _ (mem_appendIfAbsent_self _ _)
    have hs : getCorpusStatusRef ∈ (add_drive_rag_to_financial_agent a).tools :=
      mem_appendIfAbsent_self _ _
    rw [appendIfAbsent_of_mem hq, appendIfAbsent_of_mem hs]
  · rfl

theorem sseContentFragment_length_ge (ps : List String) : 34 ≤ (sseContentFragment ps).length := by
  unfold sseContentFragment
  rw [String.length_append, String.length_append]
  have h1 : ("data: \x7b\"content\": \x7b\"parts\": [" : String).length = 29 := rfl
  have h2 : ("]\x7d\x7d\n\n" : String).length = 5 := rfl
  omega

theorem sseContentFragment_ne_done (ps : List String) : sseContentFragment ps ≠ sseDone := by
  intro h
  have h1 := sseContentFragment_length_ge ps
  rw [h] at h1
  have h2 : sseDone.length = 14 := rfl
  omega

theorem sseErrorFragment_ne_done (m : String) : sseErrorFragment m ≠ sseDone := by
  intro h
  have h1 : (sseErrorFragment m).length = 17 + (jsonEscape m).length + 4 := by
    unfold sseErrorFragment
    rw [String.length_append, String.length_append]
    rfl
  rw [h] at h1
  have h2 : sseDone.length = 14 := rfl
  omega

theorem charFragments_append (a b : String) :
    charFragments (a ++ b) = charFragments a ++ charFragments b := by
  unfold charFragments
  rw [String.data_append, List.map_append]

theorem flatten_map_charFragments (l : List String) :
    (l.map charFragments).flatten = charFragments (strConcat l) := by
  induction l with
  | nil => rfl
  | cons t ts ih => simp only [List.map_cons, List.flatten_cons, strConcat, charFragments_append, ih]

theorem count_done_charFragments (s : String) : (charFragments s).count sseDone = 0 := by
  refine List.count_eq_zero.mpr ?_
  intro hmem
  unfold charFragments at hmem
  obtain ⟨c, _, hc⟩ := List.mem_map.mp hmem
  exact sseContentFragment_ne_done _ hc

theorem count_done_contentFragments (l : List (List String)) :
    ((l.filter (fun ps => !ps.isEmpty)).map sseContentFragment).count sseDone = 0 := by
  refine List.count_eq_zero.mpr ?_
  intro hmem
  obtain ⟨ps, _, hc⟩ := List.mem_map.mp hmem
  exact sseContentFragment_ne_done _ hc

theorem agents_emissions_eq (arun : AgentsRun) (apology : String) (useFallback : Bool) :
    (agents_stream_generate arun apology useFallback).emissions
      = charFragments (agents_stream_generate arun apology useFallback).assistantText
          ++ [sseDone] := by
  obtain ⟨texts, failure⟩ := arun
  cases failure with
  | true =>
    simp [agents_stream_generate, flatten_map_charFragments, charFragments_append]
  | false =>
    by_cases hc : (useFallback && strConcat texts == "") = true
    · have huf : useFallback = true := ((Bool.and_eq_true _ _).mp hc).1
      have hempty : strConcat texts = "" := eq_of_beq ((Bool.and_eq_true _ _).mp hc).2
      simp [agents_stream_generate, huf, hempty, flatten_map_charFragments, charFragments]
    · rw [Bool.not_eq_true] at hc
      simp [agents_stream_generate, hc, flatten_map_charFragments]

/-- C3 (amended): in the backend.api.agents_chat streaming variants,
every run ends with exactly one terminal `[DONE]` line and the
concatenation of the emitted text fragments equals the final
`assistant_content`; on success that content (with the empty-response
fallback where applicable) is exactly the assistant message persisted to
the session message log, while on an exception the apology fragments are
emitted but no assistant message is persisted.  In the backend.api.chat
streaming variants, which persist no message at all, a successful run
ends with exactly one `[DONE]`, but a run that raises ends with the
error fragment and contains no `[DONE]` sentinel. -/
theorem streaming_termination_amended (arun : AgentsRun) (apology : String)
    (useFallback : Bool) (crun : ChatRun) :
    ((agents_stream_generate arun apology useFallback).emissions.count sseDone = 1)
    ∧ ((agents_stream_generate arun apology useFallback).emissions.getLast? = some sseDone)
    ∧ ((agents_stream_generate arun apology useFallback).emissions
        = charFragments (agents_stream_generate arun apology useFallback).assistantText
            ++ [sseDone])
    ∧ (arun.failure = false →
        (agents_stream_generate arun apology useFallback).persisted
          = some (agents_stream_generate arun apology useFallback).assistantText)
    ∧ (arun.failure = true →
        (agents_stream_generate arun apology useFallback).persisted = none)
    ∧ (crun.failure = none → (chat_stream_generate crun).count sseDone = 1
        ∧ (chat_stream_generate crun).getLast? = some sseDone)
    ∧ (∀ msg, crun.failure = some msg → (chat_stream_generate crun).count sseDone = 0
        ∧ (chat_stream_generate crun).getLast? = some (sseErrorFragment msg)) := by
  have hemit := agents_emissions_eq arun apology useFallback
  obtain ⟨texts, failure⟩ := arun
  refine ⟨?_, ?_, hemit, ?_, ?_, ?_, ?_⟩
  · rw [hemit, List.count_append, count_done_charFragments]
    simp
  · rw [hemit]
    simp
  · intro hf
    subst hf
    by_cases hc : (useFallback && strConcat texts == "") = true
    · simp [agents_stream_generate, hc]
    · rw [Bool.not_eq_true] at hc
      simp [agents_stream_generate, hc]
  · intro hf
    subst hf
    simp [agents_stream_generate]
  · intro hf
    unfold chat_stream_generate
    rw [hf, List.count_append, count_done_contentFragments]
    simp
  · intro msg hf
    unfold chat_stream_generate
    rw [hf]
    constructor
    · have h1 : ([sseErrorFragment msg] : List String).count sseDone = 0 := by
        refine List.count_eq_zero.mpr ?_
        intro hmem
        rw [List.mem_singleton] at hmem
        exact sseErrorFragment_ne_done msg hmem.symm
      show (_ ++ [sseErrorFragment msg]).count sseDone = 0
      rw [List.count_append, count_done_contentFragments, h1]
    · simp

/-- Witness for the amended streaming property at concrete runs: a
successful agents_chat run streaming Hi emits exactly one `[DONE]` and
persists exactly the streamed text, and a successful chat.py run emits
exactly one `[DONE]`. -/
theorem streaming_termination_amended_witness :
    (agents_stream_generate ⟨["Hi"], false⟩ streamApology true).emissions.count sseDone = 1
    ∧ (agents_stream_generate ⟨["Hi"], false⟩ streamApology true).persisted
        = some (agents_stream_generate ⟨["Hi"], false⟩ streamApology true).assistantText
    ∧ (chat_stream_generate ⟨[["Hi"]], none⟩).count sseDone = 1 := by
  have h := streaming_termination_amended ⟨["Hi"], false⟩ streamApology true ⟨[["Hi"]], none⟩
  exact ⟨h.1, h.2.2.2.1 rfl, (h.2.2.2.2.2.1 rfl).1⟩

/-- C3 (counterexample): the stream_query generator of backend.api.chat,
run on a session where the agent yields one event with text Hello and
then raises an exception with message boom, emits the content fragment
followed by the error fragment and terminates without any `[DONE]`
sentinel line, so the emitted SSE sequence does not end with exactly one
terminal `[DONE]`. -/
theorem chat_stream_error_drops_done_counterexample :
    chat_stream_generate ⟨[["Hello"]], some "boom"⟩
      = [sseContentFragment ["Hello"], sseErrorFragment "boom"]
    ∧ (chat_stream_generate ⟨[["Hello"]], some "boom"⟩).count sseDone = 0
    ∧ (chat_stream_generate ⟨[["Hello"]], some "boom"⟩).getLast?
        = some (sseErrorFragment "boom") := by
  refine ⟨rfl, ?_, rfl⟩
  refine List.count_eq_zero.mpr ?_
  intro hmem
  have hmem2 : sseDone = sseContentFragment ["Hello"] ∨ sseDone = sseErrorFragment "boom" := by
    simpa [chat_stream_generate] using hmem
  rcases hmem2 with h | h
  · exact sseContentFragment_ne_done _ h.symm
  · exact sseErrorFragment_ne_done _ h.symm

/-- C1 (code bug, evaluated at the failing input): after registering a
user through `create_user` (which itself returns the record with the
`hashed_password` field stripped, and `authenticate_user` likewise), the
`/auth/me` route and the `/auth/refresh` route return the stored
document from `get_user_by_id` with the `hashed_password` field still
present, so the token-auth get-by-id paths leak the password hash. -/
theorem password_hash_leak_on_get_by_id :
    ((auth_me_route
        (create_user ⟨[]⟩ "Alice@Example.com" "pw" "Alice" (fun p => "h-" ++ p) "uid1" "t0").1
        "uid1").map (fun d => udHasKey d "hashed_password") = Except.ok true)
    ∧ ((create_user ⟨[]⟩ "Alice@Example.com" "pw" "Alice" (fun p => "h-" ++ p) "uid1" "t0").2.map
        (fun d => udHasKey d "hashed_password") = Except.ok false)
    ∧ ((auth_refresh_route_user
        (create_user ⟨[]⟩ "Alice@Example.com" "pw" "Alice" (fun p => "h-" ++ p) "uid1" "t0").1
        "uid1").map (fun d => udHasKey d "hashed_password") = Except.ok true)
    ∧ ((authenticate_user
        (create_user ⟨[]⟩ "Alice@Example.com" "pw" "Alice" (fun p => "h-" ++ p) "uid1" "t0").1
        "alice@example.com" "pw" (fun p h => h == "h-" ++ p)).map
        (fun o => o.map (fun d => udHasKey d "hashed_password")) = Except.ok (some false)) :=
  ⟨rfl, rfl, rfl, rfl⟩

/-- C2 (code bug): every call to `FirestoreService.add_message` adds the
message document and then raises `NameError` because the module never
imports the name `firestore` used in `firestore.Increment(1)`; no
message record is returned and the parent session is left untouched, so
its `message_count` is never incremented and its `updated_at` never
stamped. -/
theorem add_message_nameerror_bug (st : FSState) (sid uid role content : String)
    (md : List (String × String)) (newId now now2 : String) :
    add_message st sid uid role content md newId now now2
      = ({ sessions := st.sessions,
           messages := st.messages ++
             [(newId, { session_id := sid, user_id := uid, role := role, content := content,
                        metadata := md, created_at := now })] },
         Except.error (PyError.nameError "firestore"))
    ∧ (add_message st sid uid role content md newId now now2).1.sessions = st.sessions := by
  have hnot : "firestore" ∉ firestoreServiceModuleScope := by decide
  constructor
  · simp [add_message, hnot]
  · simp [add_message, hnot]

/-- C4: when fetching the corpus succeeds, `update_corpus_metadata`
returns True yet leaves the whole RAG state — in particular the corpus
description field and everything `get_user_corpus_info` parses out of it
— exactly as it was: the computed updated description is never written
back. -/
theorem update_corpus_metadata_writes_nothing (st : RagState) (name : String) (md : MetaDict)
    (c : RagCorpus) (h : rag_get_corpus st name = some c) :
    update_corpus_metadata st name md = (st, true)
    ∧ (rag_get_corpus (update_corpus_metadata st name md).1 name).map
        (fun x => x.description) = some c.description
    ∧ (∀ uid, get_user_corpus_info (update_corpus_metadata st name md).1 uid
        = get_user_corpus_info st uid) := by
  have h1 : update_corpus_metadata st name md = (st, true) := by
    unfold update_corpus_metadata
    rw [h]
  refine ⟨h1, ?_, ?_⟩
  · rw [h1, h]
    rfl
  · intro uid
    rw [h1]

/-- Witness for C4 at a concrete corpus: the fetch succeeds and the
call returns True with the state unchanged. -/
theorem update_corpus_metadata_writes_nothing_witness :
    rag_get_corpus ⟨[demoCorpus]⟩ "projects/p/locations/l/ragCorpora/1" = some demoCorpus
    ∧ update_corpus_metadata ⟨[demoCorpus]⟩ "projects/p/locations/l/ragCorpora/1"
        [("last_indexed", MetaVal.s "2024-02-02T00:00:00")] = (⟨[demoCorpus]⟩, true) := by
  have h : rag_get_corpus ⟨[demoCorpus]⟩ "projects/p/locations/l/ragCorpora/1"
      = some demoCorpus := rfl
  exact ⟨h, (update_corpus_metadata_writes_nothing _ _
    [("last_indexed", MetaVal.s "2024-02-02T00:00:00")] _ h).1⟩

/-- C7: for a user none of whose corpora carry the display name
`drive_corpus_user_<user id>`, `query_drive_corpus` returns the
`no_corpus` payload with an empty results list, and the retrieval
backend is never invoked. -/
theorem query_no_corpus_fallback (st : RagState) (uid query : String) (k : Nat)
    (retrieval : String → String → Nat → List RagContextChunk)
    (h : ∀ c ∈ st.corpora, c.display_name ≠ "drive_corpus_user_" ++ uid) :
    query_drive_corpus st (some uid) query k retrieval
      = ({ status := "no_corpus",
           message := some "No corpus found. Please index a Drive folder first using index_drive_folder.",
           query := some query, results := [], total_results := none,
           corpus_name := none, corpus_files := none }, false) := by
  have hfind : st.corpora.find? (fun c => c.display_name == "drive_corpus_user_" ++ uid)
      = none := by
    apply List.find?_eq_none.mpr
    intro c hc
    simpa using h c hc
  have hinfo : get_user_corpus_info st uid = none := by
    simp only [get_user_corpus_info]
    rw [hfind]
  simp only [query_drive_corpus, hinfo]

/-- Witness for C7 at a concrete state holding only another user
corpus: the query for user u1 yields status no_corpus, an empty results
list, and no retrieval-backend contact. -/
theorem query_no_corpus_fallback_witness :
    (∀ c ∈ (⟨[otherCorpus]⟩ : RagState).corpora,
        c.display_name ≠ "drive_corpus_user_" ++ "u1")
    ∧ (query_drive_corpus ⟨[otherCorpus]⟩ (some "u1") "quarterly revenue" 10
        (fun _ _ _ => [])).1.status = "no_corpus"
    ∧ (query_drive_corpus ⟨[otherCorpus]⟩ (some "u1") "quarterly revenue" 10
        (fun _ _ _ => [])).1.results = []
    ∧ (query_drive_corpus ⟨[otherCorpus]⟩ (some "u1") "quarterly revenue" 10
        (fun _ _ _ => [])).2 = false := by
  have h : ∀ c ∈ (⟨[otherCorpus]⟩ : RagState).corpora,
      c.display_name ≠ "drive_corpus_user_" ++ "u1" := by decide
  have happ := query_no_corpus_fallback ⟨[otherCorpus]⟩ "u1" "quarterly revenue" 10
    (fun _ _ _ => []) h
  exact ⟨h, by rw [happ], by rw [happ], by rw [happ]⟩

theorem filter_partition_length {α : Type} (p : α → Bool) (l : List α) :
    (l.filter p).length + (l.filter (fun a => !p a)).length = l.length := by
  induction l with
  | nil => rfl
  | cons a as ih =>
    by_cases hp : p a = true
    · simp [List.filter_cons, hp, ← ih]
      omega
    · rw [Bool.not_eq_true] at hp
      simp [List.filter_cons, hp, ← ih]
      omega

theorem indexStep_foldl (download : DriveFile → Option String)
    (upload : DriveFile → String → Bool) (files : List DriveFile)
    (a b : Nat) (ns : List String) :
    files.foldl (indexStep download upload) (a, b, ns)
      = (a + (files.filter (downloadUploadOk download upload)).length,
         b + (files.filter (fun f => !(downloadUploadOk download upload f))).length,
         ns ++ (files.filter (downloadUploadOk download upload)).map (fun f => f.name)) := by
  induction files generalizing a b ns with
  | nil => simp
  | cons f fs ih =>
    rw [List.foldl_cons]
    cases hd : download f with
    | none =>
      have hokf : downloadUploadOk download upload f = false := by
        simp [downloadUploadOk, hd]
      simp only [indexStep, hd]
      rw [ih]
      simp [List.filter_cons, hokf, Prod.ext_iff]
      omega
    | some p =>
      cases hu : upload f p with
      | true =>
        have hokf : downloadUploadOk download upload f = true := by
          simp [downloadUploadOk, hd, hu]
        simp only [indexStep, hd, hu, if_true]
        rw [ih]
        simp [List.filter_cons, hokf, Prod.ext_iff]
        omega
      | false =>
        have hokf : downloadUploadOk download upload f = false := by
          simp [downloadUploadOk, hd, hu]
        simp only [indexStep, hd, hu, Bool.false_eq_true, if_false]
        rw [ih]
        simp [List.filter_cons, hokf, Prod.ext_iff]
        omega

/-- C6: for a nonempty supported-file listing and a successfully
obtained corpus, `index_drive_folder` reports success with
`files_indexed` equal to the number of files for which download and
upload both succeeded, `files_failed` equal to the number for which
either step failed (the two counts partition the listing), and
`indexed_files` exactly the names of the succeeding files in listing
order, whichever particular files failed. -/
theorem index_partial_failure_accounting (st : RagState) (folder_id : String)
    (folder_name : Option String) (uid : String) (files : List DriveFile)
    (corpus : RagCorpus) (download : DriveFile → Option String)
    (upload : DriveFile → String → Bool) (now : String)
    (hne : files ≠ []) :
    ((index_drive_folder st folder_id folder_name (some uid) files (Except.ok corpus)
        download upload now).2.status = "success")
    ∧ ((index_drive_folder st folder_id folder_name (some uid) files (Except.ok corpus)
        download upload now).2.files_indexed
          = (files.filter (downloadUploadOk download upload)).length)
    ∧ ((index_drive_folder st folder_id folder_name (some uid) files (Except.ok corpus)
        download upload now).2.files_failed
          = some ((files.filter (fun f => !(downloadUploadOk download upload f))).length))
    ∧ ((index_drive_folder st folder_id folder_name (some uid) files (Except.ok corpus)
        download upload now).2.indexed_files
          = some ((files.filter (downloadUploadOk download upload)).map (fun f => f.name)))
    ∧ ((files.filter (downloadUploadOk download upload)).length
        + (files.filter (fun f => !(downloadUploadOk download upload f))).length
          = files.length) := by
  have hie : files.isEmpty = false := by
    cases files with
    | nil => exact absurd rfl hne
    | cons f fs => rfl
  have hfold := indexStep_foldl download upload files 0 0 []
  simp only [Nat.zero_add, List.nil_append] at hfold
  refine ⟨?_, ?_, ?_, ?_, filter_partition_length _ _⟩ <;>
    simp only [index_drive_folder, hie, Bool.false_eq_true, if_false, hfold]

/-- Witness for C6: five supported files of which exactly the downloads
of Beta and Delta fail and every upload succeeds; the report counts 3
indexed, 2 failed, and lists exactly Alpha, Gamma, Epsilon in order. -/
theorem index_partial_failure_accounting_witness :
    demoFiles ≠ []
    ∧ ((index_drive_folder ⟨[demoCorpus]⟩ "folder1" (some "Docs") (some "u1") demoFiles
        (Except.ok demoCorpus) demoDownload demoUpload "2024-03-03T00:00:00").2.files_indexed = 3)
    ∧ ((index_drive_folder ⟨[demoCorpus]⟩ "folder1" (some "Docs") (some "u1") demoFiles
        (Except.ok demoCorpus) demoDownload demoUpload "2024-03-03T00:00:00").2.files_failed
          = some 2)
    ∧ ((index_drive_folder ⟨[demoCorpus]⟩ "folder1" (some "Docs") (some "u1") demoFiles
        (Except.ok demoCorpus) demoDownload demoUpload "2024-03-03T00:00:00").2.indexed_files
          = some ["Alpha", "Gamma", "Epsilon"]) := by
  have hne : demoFiles ≠ [] := by decide
  have h := index_partial_failure_accounting ⟨[demoCorpus]⟩ "folder1" (some "Docs") "u1"
    demoFiles demoCorpus demoDownload demoUpload "2024-03-03T00:00:00" hne
  refine ⟨hne, ?_, ?_, ?_⟩
  · rw [h.2.1]
    rfl
  · rw [h.2.2.1]
    rfl
  · rw [h.2.2.2.1]
    rfl

theorem sessGet_cons (kv : String × SVal) (rest : SessDict) (k : String) :
    sessGet (kv :: rest) k = if kv.1 = k then some kv.2 else sessGet rest k := by
  by_cases h : kv.1 = k <;> simp [sessGet, List.find?_cons, h]

theorem sessGet_sessSet (d : SessDict) (k1 : String) (v : SVal) (k : String) :
    sessGet (sessSet d k1 v) k = if k1 = k then some v else sessGet d k := by
  induction d with
  | nil =>
    by_cases h : k1 = k <;> simp [sessSet, sessGet_cons, sessGet, h]
  | cons kv rest ih =>
    by_cases h : kv.1 = k1
    · rw [show sessSet (kv :: rest) k1 v = (k1, v) :: rest by simp [sessSet, h]]
      by_cases hk : k1 = k
      · simp [sessGet_cons, hk]
      · have hkv : kv.1 ≠ k := by rw [h]; exact hk
        simp [sessGet_cons, hk, hkv]
    · rw [show sessSet (kv :: rest) k1 v = kv :: sessSet rest k1 v by simp [sessSet, h]]
      rw [sessGet_cons, ih, sessGet_cons]
      by_cases hk : kv.1 = k
      · have hk1 : k1 ≠ k := fun he => h (hk.trans he.symm)
        simp [hk, hk1]
      · simp [hk]

theorem sessGet_dictMerge (d b : SessDict) (k : String) :
    sessGet (dictMerge d b)
        k = match lastGet b k with
            | some v => some v
            | none => sessGet d k := by
  induction b generalizing d with
  | nil => rfl
  | cons kv rest ih =>
    rw [show dictMerge d (kv :: rest) = dictMerge (sessSet d kv.1 kv.2) rest from rfl]
    rw [ih]
    cases hl : lastGet rest k with
    | some v => simp [lastGet, hl]
    | none =>
      simp only [lastGet, hl, sessGet_sessSet]
      by_cases hk : kv.1 = k <;> simp [hk]

theorem dbLookup_cons {α : Type} (kv : String × α) (rest : List (String × α)) (k : String) :
    dbLookup (kv :: rest) k = if kv.1 = k then some kv.2 else dbLookup rest k := by
  by_cases h : kv.1 = k <;> simp [dbLookup, List.find?_cons, h]

theorem dbLookup_dbSet_self {α : Type} (db : List (String × α)) (k : String) (v : α) :
    dbLookup (dbSet db k v) k = some v := by
  induction db with
  | nil => simp [dbSet, dbLookup]
  | cons kv rest ih =>
    by_cases h : kv.1 = k
    · rw [show dbSet (kv :: rest) k v = (k, v) :: rest by simp [dbSet, h]]
      simp [dbLookup_cons]
    · rw [show dbSet (kv :: rest) k v = kv :: dbSet rest k v by simp [dbSet, h]]
      simp [dbLookup_cons, h, ih]

/-- C9: the in-memory PATCH handler assigns every field of the request
body onto the stored record (each key of the body ends with its last
bound value, except that `updatedAt` is restamped afterwards), so a
PATCH issued by the owner whose body binds `userId` to another user
rewrites the record owner, after which the original owner GET on that
session id returns 404: ownership is not preserved by the update. -/
theorem patch_userid_changes_owner (st : SessionsState) (sid A B now : String)
    (body : SessDict) (sess : SessDict)
    (hlk : dbLookup st.sessions_db sid = some sess)
    (hown : sessGet sess "userId" = some (SVal.s A))
    (hbody : lastGet body "userId" = some (SVal.s B))
    (hAB : B ≠ A) :
    update_session_route st sid A body now
      = ({ st with sessions_db := (dbSet st.sessions_db sid
             (sessSet (dictMerge sess body) "updatedAt" (SVal.s now))) },
         Except.ok (sessSet (dictMerge sess body) "updatedAt" (SVal.s now)))
    ∧ sessGet (sessSet (dictMerge sess body) "updatedAt" (SVal.s now)) "userId"
        = some (SVal.s B)
    ∧ get_session_route (update_session_route st sid A body now).1 sid A = Except.error 404
    ∧ (∀ k v, k ≠ "updatedAt" → lastGet body k = some v →
        sessGet (sessSet (dictMerge sess body) "updatedAt" (SVal.s now)) k = some v) := by
  have hres : update_session_route st sid A body now
      = ({ st with sessions_db := (dbSet st.sessions_db sid
             (sessSet (dictMerge sess body) "updatedAt" (SVal.s now))) },
         Except.ok (sessSet (dictMerge sess body) "updatedAt" (SVal.s now))) := by
    simp [update_session_route, hlk, hown]
  have hgetB : sessGet (sessSet (dictMerge sess body) "updatedAt" (SVal.s now)) "userId"
      = some (SVal.s B) := by
    rw [sessGet_sessSet, if_neg (by decide), sessGet_dictMerge, hbody]
  refine ⟨hres, hgetB, ?_, ?_⟩
  · rw [hres]
    have hne : some (SVal.s B) ≠ some (SVal.s A) := by
      intro he
      exact hAB (by injection he with h2; injection h2)
    simp [get_session_route, dbLookup_dbSet_self, hgetB, hne]
  · intro k v hk hkv
    rw [sessGet_sessSet, if_neg (fun h => hk h.symm), sessGet_dictMerge, hkv]

/-- Witness for C9: in a store holding session s1 owned by alice, a
PATCH by alice whose body sets `userId` to mallory succeeds, after which
the GET by alice on s1 returns 404. -/
theorem patch_userid_changes_owner_witness :
    dbLookup demoSessionsState.sessions_db "s1" = some demoSession
    ∧ sessGet demoSession "userId" = some (SVal.s "alice")
    ∧ lastGet [("userId", SVal.s "mallory")] "userId" = some (SVal.s "mallory")
    ∧ ("mallory" : String) ≠ "alice"
    ∧ get_session_route (update_session_route demoSessionsState "s1" "alice"
        [("userId", SVal.s "mallory")] "2024-01-02T00:00:00").1 "s1" "alice"
          = Except.error 404 := by
  have h := patch_userid_changes_owner demoSessionsState "s1" "alice" "mallory"
    "2024-01-02T00:00:00" [("userId", SVal.s "mallory")] demoSession rfl rfl rfl (by decide)
  exact ⟨rfl, rfl, rfl, by decide, h.2.2.1⟩

/-- C10: on a supported content type, the session-attaching upload
endpoint with a session id that is absent from the store or owned by a
different user still succeeds with the full descriptor, modifies no
state, and returns exactly the response every successful upload of that
file returns — indistinguishable from the attached case. -/
theorem upload_attach_skipped_silently (st : SessionsState) (user sid : String)
    (file : UploadFilePy)
    (hsup : (uploadSupportedTypes.find? (fun kv => kv.1 == file.content_type)).isNone = false)
    (hmiss : dbLookup st.sessions_db sid = none
      ∨ ∃ sess, dbLookup st.sessions_db sid = some sess
          ∧ sessGet sess "userId" ≠ some (SVal.s user)) :
    backend_upload_file st user (some sid) file = (st, Except.ok (mkBackendFileData file))
    ∧ (∀ (st2 : SessionsState) (u2 : String) (sid2 : Option String),
        (backend_upload_file st2 u2 sid2 file).2 = Except.ok (mkBackendFileData file)) := by
  constructor
  · by_cases hsid : sid = ""
    · simp [backend_upload_file, hsup, hsid]
    · rcases hmiss with hnone | ⟨sess, hsess, hown⟩
      · simp [backend_upload_file, hsup, hsid, hnone]
      · simp [backend_upload_file, hsup, hsid, hsess, hown]
  · intro st2 u2 sid2
    simp [backend_upload_file, hsup]

/-- Witness for C10: a supported PDF uploaded with a session id that
names nobody in the store returns the descriptor and leaves the store
unchanged. -/
theorem upload_attach_skipped_silently_witness :
    ((uploadSupportedTypes.find?
        (fun kv => kv.1 == ("application/pdf" : String))).isNone = false)
    ∧ dbLookup demoSessionsState.sessions_db "nosuch" = none
    ∧ backend_upload_file demoSessionsState "alice" (some "nosuch")
        ⟨"a.pdf", "application/pdf", "content"⟩
      = (demoSessionsState,
         Except.ok (mkBackendFileData ⟨"a.pdf", "application/pdf", "content"⟩)) := by
  have h := upload_attach_skipped_silently demoSessionsState "alice" "nosuch"
    ⟨"a.pdf", "application/pdf", "content"⟩ rfl (Or.inl rfl)
  exact ⟨rfl, rfl, h.1⟩

/-- C5 (amended): the single-file upload endpoints of backend/api/chat.py
and server.py reject any request over 20 MB with HTTP 400 before the
content is base64-encoded, regardless of content type (an unsupported
type is rejected with 400 even earlier); but the session-attaching
backend/api/upload.py endpoint performs no size check at all, and
server.py /upload/multiple converts the per-file 400 into an error entry
inside an HTTP 200 response. -/
theorem upload_size_limit_amended (file : UploadFilePy) (now : String)
    (h : file.content.length > MAX_FILE_SIZE) :
    (∃ r, chat_upload_file file = Except.error r ∧ rejectionStatusCode r = 400)
    ∧ (∃ r, process_uploaded_file file now = Except.error r ∧ rejectionStatusCode r = 400)
    ∧ (∃ r, upload_multiple_files [file] now
        = Except.ok { total := 1, successful := 0,
                      results := [MultiEntry.errEntry file.filename r] }) := by
  refine ⟨?_, ?_, ?_⟩
  · by_cases ht : file.content_type ∈ chatSupportedMimetypes
    · exact ⟨UploadReject.tooLarge, by simp [chat_upload_file, ht, h], rfl⟩
    · exact ⟨UploadReject.badType, by simp [chat_upload_file, ht], rfl⟩
  · by_cases ht : file.content_type ∈ serverSupportedMimetypes
    · exact ⟨UploadReject.tooLarge, by simp [process_uploaded_file, ht, h], rfl⟩
    · exact ⟨UploadReject.badType, by simp [process_uploaded_file, ht], rfl⟩
  · by_cases ht : file.content_type ∈ serverSupportedMimetypes
    · exact ⟨UploadReject.tooLarge,
        by simp [upload_multiple_files, process_uploaded_file, ht, h]⟩
    · exact ⟨UploadReject.badType,
        by simp [upload_multiple_files, process_uploaded_file, ht]⟩

/-- Witness for C5 at the concrete oversized PDF: both size-checking
paths reject it with 400 and /upload/multiple wraps the rejection in a
200. -/
theorem upload_size_limit_amended_witness :
    bigPdfFile.content.length > MAX_FILE_SIZE
    ∧ (∃ r, chat_upload_file bigPdfFile = Except.error r ∧ rejectionStatusCode r = 400)
    ∧ (∃ r, process_uploaded_file bigPdfFile "2024-01-01T00:00:00" = Except.error r
        ∧ rejectionStatusCode r = 400) := by
  have hlen : bigPdfFile.content.length > MAX_FILE_SIZE := by
    show bigFileContent.length > MAX_FILE_SIZE
    rw [show bigFileContent.length = MAX_FILE_SIZE + 1 by
      simp [bigFileContent, String.length]]
    omega
  have h := upload_size_limit_amended bigPdfFile "2024-01-01T00:00:00" hlen
  exact ⟨hlen, h.1, h.2.1⟩

/-- C5 (counterexample): the session-attaching backend/api/upload.py
endpoint accepts a PDF one byte over 20 MB: with no session id supplied
the call returns the full descriptor with status 200 rather than any
HTTP 400 rejection, and its base64-encoded content is produced. -/
theorem backend_upload_oversized_accepted_counterexample :
    bigPdfFile.content.length > MAX_FILE_SIZE
    ∧ backend_upload_file ⟨[], []⟩ "u1" none bigPdfFile
        = (⟨[], []⟩, Except.ok (mkBackendFileData bigPdfFile)) := by
  constructor
  · show bigFileContent.length > MAX_FILE_SIZE
    rw [show bigFileContent.length = MAX_FILE_SIZE + 1 by
      simp [bigFileContent, String.length]]
    omega
  · rfl

end ADK
